import Mathlib

/-!
Shallow embedding of the AgentCore gateway custom-resource reconciler
(src/infra-cdk/lambdas/gateway-custom-resource/index.py).

Modelling conventions.  The remote control-plane (bedrock-agentcore-control),
the SSM parameter store and the HTTP callback transport are modelled by an
oracle (Env): the n-th outbound call of a given method receives the response
the oracle prescribes for index n of that method.  Since the program is
deterministic and sequential, indexing responses by per-method call order is
fully general.  The state (St) holds the per-method call counters, a discrete
clock advanced only by time.sleep, and the observable effect traces: control
plane calls with their arguments, successful SSM writes, delivered HTTP PUT
callbacks, and the sleep durations.  A Python exception is Except.error with
the exception's message (str of the exception); Python truthiness tests on
strings (x or d, if not x) are modelled explicitly, treating the empty string
as falsy.  json.dumps logging and the logger calls are pure no-ops and are
omitted; json.loads of the ApiSpec document is modelled as the identity on an
opaque payload string.
-/

/-- Remote gateway record as returned by get_gateway and listed by
list_gateways; gatewayUrl may be absent from the response. -/
structure GatewayRecord where
  gatewayId : String
  name : String
  status : String
  gatewayUrl : Option String
deriving DecidableEq

/-- Remote gateway target record; the code only ever reads targetId. -/
structure TargetRecord where
  targetId : String
deriving DecidableEq

/-- ResourceProperties of the inbound event, with all required keys present
(GatewayName, LambdaArn, ApiSpec, GatewayRoleArn, CognitoClientId,
CognitoDiscoveryUrl, Region, SsmPrefix); ssmRoot models the SsmPrefix key. -/
structure ResourceProps where
  gatewayName : String
  lambdaArn : String
  apiSpec : String
  gatewayRoleArn : String
  cognitoClientId : String
  cognitoDiscoveryUrl : String
  region : String
  ssmRoot : String
deriving DecidableEq

/-- Inbound lifecycle event.  PhysicalResourceId and OldResourceProperties
are optional, exactly as the code treats them (plain indexing raises on a
missing PhysicalResourceId, .get is used for OldResourceProperties). -/
structure Event where
  requestType : String
  resourceProperties : ResourceProps
  oldResourceProperties : Option ResourceProps
  physicalResourceId : Option String
  stackId : String
  requestId : String
  logicalResourceId : String
  responseURL : String
deriving DecidableEq

/-- Body of the callback PUT to the event's ResponseURL; Data is the mapping
sent back to the orchestrator. -/
structure ResponseBody where
  Status : String
  Reason : String
  PhysicalResourceId : String
  StackId : String
  RequestId : String
  LogicalResourceId : String
  Data : List (String × String)
deriving DecidableEq

/-- One control-plane call together with its arguments, as recorded in the
trace. -/
inductive ApiCall where
  | listGateways
  | getGateway (gid : String)
  | createGateway (name roleArn clientId discoveryUrl : String)
  | deleteGateway (gid : String)
  | listGatewayTargets (gid : String)
  | createGatewayTarget (gid arn spec : String)
  | updateGatewayTarget (gid tid arn spec : String)
  | deleteGatewayTarget (gid tid : String)
deriving DecidableEq

/-- Execution state: per-method call counters, discrete clock, and effect
traces (control-plane calls, successful SSM writes, delivered callbacks,
sleeps). -/
structure St where
  nListGateways : Nat
  nGetGateway : Nat
  nCreateGateway : Nat
  nDeleteGateway : Nat
  nListTargets : Nat
  nCreateTarget : Nat
  nUpdateTarget : Nat
  nDeleteTarget : Nat
  nPutParam : Nat
  nHttpPut : Nat
  clock : Nat
  apiCalls : List ApiCall
  ssmWrites : List (String × String)
  httpPuts : List (String × ResponseBody)
  sleeps : List Nat
deriving DecidableEq

/-- Initial state: all counters zero, empty traces. -/
def St.init : St :=
  { nListGateways := 0, nGetGateway := 0, nCreateGateway := 0
    nDeleteGateway := 0, nListTargets := 0, nCreateTarget := 0
    nUpdateTarget := 0, nDeleteTarget := 0, nPutParam := 0, nHttpPut := 0
    clock := 0, apiCalls := [], ssmWrites := [], httpPuts := [], sleeps := [] }

/-- Oracle: the response (or raised exception message) each external call
receives, indexed by that method's call counter. -/
structure Env where
  listGatewaysR : Nat → Except String (List GatewayRecord)
  getGatewayR : Nat → Except String GatewayRecord
  createGatewayR : Nat → Except String String
  deleteGatewayR : Nat → Except String Unit
  listGatewayTargetsR : Nat → Except String (List TargetRecord)
  createGatewayTargetR : Nat → Except String String
  updateGatewayTargetR : Nat → Except String Unit
  deleteGatewayTargetR : Nat → Except String Unit
  putParameterR : Nat → Except String Unit
  httpPutR : Nat → Except String Unit

/-- Does the pattern occur at the start of the character list? -/
def listStarts : List Char → List Char → Bool
  | [], _ => true
  | _ :: _, [] => false
  | a :: as, b :: bs => a == b && listStarts as bs

/-- Does the pattern occur anywhere in the character list? -/
def listHas (pat : List Char) : List Char → Bool
  | [] => pat.isEmpty
  | b :: bs => listStarts pat (b :: bs) || listHas pat bs

/-- Python substring test: pat in hay. -/
def strContains (hay pat : String) : Bool :=
  listHas pat.data hay.data

/-- Python short-circuit "x or d" for an optional string x: the default is
used when x is absent or empty (falsy). -/
def strOr (x : Option String) (d : String) : String :=
  match x with
  | some v => if v = "" then d else v
  | none => d

/-- The deterministic fallback gateway URL template from the gateway id and
region (lines 132, 176 and 227 of index.py). -/
def fallbackUrl (gid region : String) : String :=
  "https://" ++ gid ++ ".gateway.bedrock-agentcore." ++ region ++
    ".amazonaws.com/mcp"

/-- URL extraction shared by the create, existing-gateway and update paths:
gateway_url = details.get("gatewayUrl"); if not gateway_url: construct. -/
def resolveGatewayUrl (u : Option String) (gid region : String) : String :=
  match u with
  | some v => if v = "" then fallbackUrl gid region else v
  | none => fallbackUrl gid region

/-- agentcore_client.list_gateways(); the oracle yields the items list (the
code reads response.get("items", [])). -/
def callListGateways (env : Env) (s : St) :
    Except String (List GatewayRecord) × St :=
  (env.listGatewaysR s.nListGateways,
   { s with nListGateways := s.nListGateways + 1
            apiCalls := s.apiCalls ++ [ApiCall.listGateways] })

/-- agentcore_client.get_gateway(gatewayIdentifier=gid). -/
def callGetGateway (env : Env) (gid : String) (s : St) :
    Except String GatewayRecord × St :=
  (env.getGatewayR s.nGetGateway,
   { s with nGetGateway := s.nGetGateway + 1
            apiCalls := s.apiCalls ++ [ApiCall.getGateway gid] })

/-- agentcore_client.create_gateway(...); the oracle yields the new
gatewayId field of the response. -/
def callCreateGateway (env : Env) (props : ResourceProps) (s : St) :
    Except String String × St :=
  (env.createGatewayR s.nCreateGateway,
   { s with nCreateGateway := s.nCreateGateway + 1
            apiCalls := s.apiCalls ++
              [ApiCall.createGateway props.gatewayName props.gatewayRoleArn
                props.cognitoClientId props.cognitoDiscoveryUrl] })

/-- agentcore_client.delete_gateway(gatewayIdentifier=gid). -/
def callDeleteGateway (env : Env) (gid : String) (s : St) :
    Except String Unit × St :=
  (env.deleteGatewayR s.nDeleteGateway,
   { s with nDeleteGateway := s.nDeleteGateway + 1
            apiCalls := s.apiCalls ++ [ApiCall.deleteGateway gid] })

/-- agentcore_client.list_gateway_targets(gatewayIdentifier=gid); the oracle
yields the items list. -/
def callListTargets (env : Env) (gid : String) (s : St) :
    Except String (List TargetRecord) × St :=
  (env.listGatewayTargetsR s.nListTargets,
   { s with nListTargets := s.nListTargets + 1
            apiCalls := s.apiCalls ++ [ApiCall.listGatewayTargets gid] })

/-- agentcore_client.create_gateway_target(...); the oracle yields the
targetId field of the response. -/
def callCreateTarget (env : Env) (gid arn spec : String) (s : St) :
    Except String String × St :=
  (env.createGatewayTargetR s.nCreateTarget,
   { s with nCreateTarget := s.nCreateTarget + 1
            apiCalls := s.apiCalls ++ [ApiCall.createGatewayTarget gid arn spec] })

/-- agentcore_client.update_gateway_target(...). -/
def callUpdateTarget (env : Env) (gid tid arn spec : String) (s : St) :
    Except String Unit × St :=
  (env.updateGatewayTargetR s.nUpdateTarget,
   { s with nUpdateTarget := s.nUpdateTarget + 1
            apiCalls := s.apiCalls ++
              [ApiCall.updateGatewayTarget gid tid arn spec] })

/-- agentcore_client.delete_gateway_target(gatewayIdentifier, targetId). -/
def callDeleteTarget (env : Env) (gid tid : String) (s : St) :
    Except String Unit × St :=
  (env.deleteGatewayTargetR s.nDeleteTarget,
   { s with nDeleteTarget := s.nDeleteTarget + 1
            apiCalls := s.apiCalls ++ [ApiCall.deleteGatewayTarget gid tid] })

/-- time.sleep(n): advances the discrete clock and records the sleep. -/
def sleepM (n : Nat) (s : St) : St :=
  { s with clock := s.clock + n, sleeps := s.sleeps ++ [n] }

/-- ssm_client.put_parameter(Name, Value, Overwrite=True): the write is
recorded only when the call succeeds. -/
def putParameterM (env : Env) (name value : String) (s : St) :
    Except String Unit × St :=
  match env.putParameterR s.nPutParam with
  | Except.ok _ =>
      (Except.ok (), { s with nPutParam := s.nPutParam + 1
                              ssmWrites := s.ssmWrites ++ [(name, value)] })
  | Except.error e => (Except.error e, { s with nPutParam := s.nPutParam + 1 })

/-- urllib3 PUT of the response body to the callback URL; the delivery is
recorded only when the transport succeeds, a transport failure raises. -/
def httpPutM (env : Env) (url : String) (body : ResponseBody) (s : St) :
    Except String Unit × St :=
  match env.httpPutR s.nHttpPut with
  | Except.ok _ =>
      (Except.ok (), { s with nHttpPut := s.nHttpPut + 1
                              httpPuts := s.httpPuts ++ [(url, body)] })
  | Except.error e => (Except.error e, { s with nHttpPut := s.nHttpPut + 1 })

/-- Body of the callback as built by send_response (lines 463-472): the
Python short-circuit defaults "reason or ...", "physical_resource_id or
event.get(..., NONE)" and "data or empty" are modelled with strOr. -/
def buildResponseBody (event : Event) (status : String)
    (reason : Option String) (data : Option (List (String × String)))
    (pid : Option String) : ResponseBody :=
  { Status := status
    Reason := strOr reason (status ++ ": See CloudWatch logs")
    PhysicalResourceId :=
      strOr pid (event.physicalResourceId.getD "NONE")
    StackId := event.stackId
    RequestId := event.requestId
    LogicalResourceId := event.logicalResourceId
    Data := data.getD [] }

/-- send_response (lines 438-484): builds the body, PUTs it to the event's
ResponseURL and returns it; a transport failure raises. -/
def send_response (env : Env) (event : Event) (status : String)
    (reason : Option String) (data : Option (List (String × String)))
    (pid : Option String) (s : St) : Except String ResponseBody × St :=
  match httpPutM env event.responseURL
      (buildResponseBody event status reason data pid) s with
  | (Except.ok _, s1) => (Except.ok (buildResponseBody event status reason data pid), s1)
  | (Except.error e, s1) => (Except.error e, s1)

/-- update_ssm_parameters (lines 401-435): writes gateway_url only when the
record carries a truthy URL, then target_id, then gateway_id; any
put_parameter failure raises at that point. -/
def update_ssm_parameters (env : Env) (gd : GatewayRecord) (tid : String)
    (props : ResourceProps) (s : St) : Except String Unit × St :=
  let urlStep : Except String Unit × St :=
    match gd.gatewayUrl with
    | some u =>
        if u = "" then (Except.ok (), s)
        else putParameterM env (props.ssmRoot ++ "/gateway_url") u s
    | none => (Except.ok (), s)
  match urlStep with
  | (Except.error e, s0) => (Except.error e, s0)
  | (Except.ok _, s0) =>
    match putParameterM env (props.ssmRoot ++ "/target_id") tid s0 with
    | (Except.error e, s1) => (Except.error e, s1)
    | (Except.ok _, s1) =>
        putParameterM env (props.ssmRoot ++ "/gateway_id") gd.gatewayId s1

/-- Polling loop of wait_for_gateway_ready (lines 386-396).  The fuel only
bounds the recursion; since every iteration advances the clock by 10 and the
loop runs while clock - start < maxWait, the caller passes fuel maxWait + 1,
strictly more than the maxWait / 10 + 1 reachable iterations, so the fuel
zero branch (which returns the same timeout error as loop exit) is never the
deciding case. -/
def wait_loop (env : Env) (gid : String) (start maxWait : Nat) :
    Nat → St → Except String Unit × St
  | 0, s => (Except.error ("Gateway not ready after " ++ toString maxWait ++ "s"), s)
  | fuel + 1, s =>
    if s.clock - start < maxWait then
      match callGetGateway env gid s with
      | (Except.error e, s1) => (Except.error e, s1)
      | (Except.ok gd, s1) =>
        if gd.status = "READY" then (Except.ok (), s1)
        else if gd.status = "FAILED" || gd.status = "DELETING" then
          (Except.error ("Gateway in unexpected status: " ++ gd.status), s1)
        else wait_loop env gid start maxWait fuel (sleepM 10 s1)
    else (Except.error ("Gateway not ready after " ++ toString maxWait ++ "s"), s)

/-- wait_for_gateway_ready (lines 371-398, max_wait defaults to 120). -/
def wait_for_gateway_ready (env : Env) (gid : String) (maxWait : Nat)
    (s : St) : Except String Unit × St :=
  wait_loop env gid s.clock maxWait (maxWait + 1) s

/-- Retry loop of create_target_with_retry (lines 296-324): remaining counts
the attempts left out of maxRetries, attempt is the Python loop index used
for the backoff exponent; a transient error (message containing CREATING or
UPDATING) sleeps 2 ^ attempt and retries, any other error re-raises, and an
exhausted loop raises the descriptive failure. -/
def createTargetGo (env : Env) (gid arn spec : String) (maxRetries : Nat) :
    Nat → Nat → St → Except String String × St
  | _attempt, 0, s =>
      (Except.error ("Failed to create target after " ++ toString maxRetries ++
        " attempts"), s)
  | attempt, remaining + 1, s =>
    match callCreateTarget env gid arn spec s with
    | (Except.ok tid, s1) => (Except.ok tid, s1)
    | (Except.error e, s1) =>
      if strContains e "CREATING" || strContains e "UPDATING" then
        createTargetGo env gid arn spec maxRetries (attempt + 1) remaining
          (sleepM (2 ^ attempt) s1)
      else (Except.error e, s1)

/-- create_target_with_retry (lines 274-324, max_retries defaults to 5). -/
def create_target_with_retry (env : Env) (gid arn spec : String)
    (maxRetries : Nat) (s : St) : Except String String × St :=
  createTargetGo env gid arn spec maxRetries 0 maxRetries s

/-- create_or_update_target (lines 327-368): list the targets and update the
first one in place when any exist; on an empty listing, or on any exception
while listing or updating (swallowed with a warning), fall through to
create_target_with_retry. -/
def create_or_update_target (env : Env) (gid arn spec : String) (s : St) :
    Except String String × St :=
  let attempt : Except String (Option String) × St :=
    match callListTargets env gid s with
    | (Except.error e, s1) => (Except.error e, s1)
    | (Except.ok targets, s1) =>
      match targets with
      | [] => (Except.ok none, s1)
      | t :: _ =>
        match callUpdateTarget env gid t.targetId arn spec s1 with
        | (Except.error e, s2) => (Except.error e, s2)
        | (Except.ok _, s2) => (Except.ok (some t.targetId), s2)
  match attempt with
  | (Except.ok (some tid), s1) => (Except.ok tid, s1)
  | (Except.ok none, s1) => create_target_with_retry env gid arn spec 5 s1
  | (Except.error _, s1) => create_target_with_retry env gid arn spec 5 s1

/-- Target-deletion loop of delete_gateway (lines 261-265): delete each
listed target, sleeping 5 time-units after each deletion; a failure raises
out of the loop. -/
def deleteTargetsLoop (env : Env) (gid : String) :
    List TargetRecord → St → Except String Unit × St
  | [], s => (Except.ok (), s)
  | t :: ts, s =>
    match callDeleteTarget env gid t.targetId s with
    | (Except.error e, s1) => (Except.error e, s1)
    | (Except.ok _, s1) => deleteTargetsLoop env gid ts (sleepM 5 s1)

/-- Try-block of delete_gateway (lines 258-267): list the targets, delete
them one by one, then delete the gateway; the first exception aborts the
block (the caller swallows it). -/
def deleteAllAttempt (env : Env) (gid : String) (s : St) :
    Except String Unit × St :=
  match callListTargets env gid s with
  | (Except.error e, s1) => (Except.error e, s1)
  | (Except.ok targets, s1) =>
    match deleteTargetsLoop env gid targets s1 with
    | (Except.error e, s2) => (Except.error e, s2)
    | (Except.ok _, s2) => callDeleteGateway env gid s2

/-- delete_gateway (lines 241-271): reads the physical id (raising a
KeyError when absent), runs the best-effort teardown whose outcome is
discarded (logged and swallowed), and always reports SUCCESS. -/
def delete_gateway (env : Env) (event : Event) (s : St) :
    Except String ResponseBody × St :=
  match event.physicalResourceId with
  | none => (Except.error "KeyError: PhysicalResourceId", s)
  | some gid =>
    let s1 := (deleteAllAttempt env gid s).2
    send_response env event "SUCCESS" none none (some gid) s1

/-- Body of the existing-gateway branch of create_gateway (lines 118-143):
re-read the gateway, reconcile its target, persist config, resolve the URL
and report SUCCESS with the listed gateway's id. -/
def existingGatewayBlock (env : Env) (event : Event) (props : ResourceProps)
    (gw : GatewayRecord) (s : St) : Except String (Option ResponseBody) × St :=
  match callGetGateway env gw.gatewayId s with
  | (Except.error e, s1) => (Except.error e, s1)
  | (Except.ok gd, s1) =>
    match create_or_update_target env gw.gatewayId props.lambdaArn
        props.apiSpec s1 with
    | (Except.error e, s2) => (Except.error e, s2)
    | (Except.ok tid, s2) =>
      match update_ssm_parameters env gd tid props s2 with
      | (Except.error e, s3) => (Except.error e, s3)
      | (Except.ok _, s3) =>
        match send_response env event "SUCCESS" none
            (some [("GatewayId", gw.gatewayId),
                   ("GatewayUrl",
                    resolveGatewayUrl gd.gatewayUrl gw.gatewayId props.region),
                   ("TargetId", tid)])
            (some gw.gatewayId) s3 with
        | (Except.error e, s4) => (Except.error e, s4)
        | (Except.ok body, s4) => (Except.ok (some body), s4)

/-- Loop over the listed gateways (lines 116-143): the first record whose
name equals the requested GatewayName enters the existing-gateway block; a
loop that finds none falls through (ok none). -/
def findGatewayLoop (env : Env) (event : Event) (props : ResourceProps)
    (s : St) : List GatewayRecord → Except String (Option ResponseBody) × St
  | [] => (Except.ok none, s)
  | gw :: rest =>
    if gw.name = props.gatewayName then existingGatewayBlock env event props gw s
    else findGatewayLoop env event props s rest

/-- New-gateway path of create_gateway (lines 147-189): create the gateway
with the JWT authorizer config, wait until READY, re-read details, create
the target with retry, persist config, resolve the URL and report SUCCESS
with the new id. -/
def createNewGateway (env : Env) (event : Event) (props : ResourceProps)
    (s : St) : Except String ResponseBody × St :=
  match callCreateGateway env props s with
  | (Except.error e, s1) => (Except.error e, s1)
  | (Except.ok gid, s1) =>
    match wait_for_gateway_ready env gid 120 s1 with
    | (Except.error e, s2) => (Except.error e, s2)
    | (Except.ok _, s2) =>
      match callGetGateway env gid s2 with
      | (Except.error e, s3) => (Except.error e, s3)
      | (Except.ok gd, s3) =>
        match create_target_with_retry env gid props.lambdaArn props.apiSpec
            5 s3 with
        | (Except.error e, s4) => (Except.error e, s4)
        | (Except.ok tid, s4) =>
          match update_ssm_parameters env gd tid props s4 with
          | (Except.error e, s5) => (Except.error e, s5)
          | (Except.ok _, s5) =>
            send_response env event "SUCCESS" none
              (some [("GatewayId", gid),
                     ("GatewayUrl",
                      resolveGatewayUrl gd.gatewayUrl gid props.region),
                     ("TargetId", tid)])
              (some gid) s5

/-- create_gateway (lines 88-189): the existing-gateway lookup runs inside a
try whose exception is swallowed with a warning (falling through to the
new-gateway path), and a loop that finds no matching name also falls
through. -/
def create_gateway (env : Env) (event : Event) (props : ResourceProps)
    (s : St) : Except String ResponseBody × St :=
  let lookup : Except String (Option ResponseBody) × St :=
    match callListGateways env s with
    | (Except.error e, s1) => (Except.error e, s1)
    | (Except.ok gws, s1) => findGatewayLoop env event props s1 gws
  match lookup with
  | (Except.ok (some body), s1) => (Except.ok body, s1)
  | (Except.ok none, s1) => createNewGateway env event props s1
  | (Except.error _, s1) => createNewGateway env event props s1

/-- update_gateway (lines 192-238): reads the physical id (raising when
absent); a changed GatewayName (comparing OldResourceProperties.get against
the new properties) triggers delete-then-create, otherwise the target is
reconciled in place, details re-read, config persisted and SUCCESS reported
with the unchanged physical id. -/
def update_gateway (env : Env) (event : Event) (props : ResourceProps)
    (s : St) : Except String ResponseBody × St :=
  match event.physicalResourceId with
  | none => (Except.error "KeyError: PhysicalResourceId", s)
  | some gid =>
    if (event.oldResourceProperties.map (fun p => p.gatewayName)) ≠
        some props.gatewayName then
      match delete_gateway env event s with
      | (Except.error e, s1) => (Except.error e, s1)
      | (Except.ok _, s1) => create_gateway env event props s1
    else
      match create_or_update_target env gid props.lambdaArn props.apiSpec s with
      | (Except.error e, s1) => (Except.error e, s1)
      | (Except.ok tid, s1) =>
        match callGetGateway env gid s1 with
        | (Except.error e, s2) => (Except.error e, s2)
        | (Except.ok gd, s2) =>
          match update_ssm_parameters env gd tid props s2 with
          | (Except.error e, s3) => (Except.error e, s3)
          | (Except.ok _, s3) =>
            send_response env event "SUCCESS" none
              (some [("GatewayId", gid),
                     ("GatewayUrl",
                      resolveGatewayUrl gd.gatewayUrl gid props.region),
                     ("TargetId", tid)])
              (some gid) s3

/-- Try-block of the handler (lines 73-81): dispatch on RequestType, an
unknown kind raising a ValueError. -/
def tryDispatch (env : Env) (event : Event) (s : St) :
    Except String ResponseBody × St :=
  if event.requestType = "Create" then
    create_gateway env event event.resourceProperties s
  else if event.requestType = "Update" then
    update_gateway env event event.resourceProperties s
  else if event.requestType = "Delete" then
    delete_gateway env event s
  else (Except.error ("Unknown request type: " ++ event.requestType), s)

/-- handler (lines 51-85): any exception from the dispatch is caught and
converted into a FAILED response carrying the exception's message; the
conversion itself delivers a callback, whose own transport failure would
re-raise out of the handler. -/
def handler (env : Env) (event : Event) (s : St) :
    Except String ResponseBody × St :=
  match tryDispatch env event s with
  | (Except.ok r, s1) => (Except.ok r, s1)
  | (Except.error e, s1) => send_response env event "FAILED" (some e) none none s1

/-- strOr on a present value unfolds to the truthiness conditional. -/
lemma strOr_some (p d : String) : strOr (some p) d = if p = "" then d else p := rfl

/-- strOr of a value defaulting to itself is the value. -/
lemma strOr_some_self (p : String) : strOr (some p) p = p := by
  rw [strOr_some]; split <;> simp_all

/-- A successful callback transport makes send_response return the built
body and record exactly one delivered PUT. -/
lemma send_response_ok (env : Env) (event : Event) (status : String)
    (reason : Option String) (data : Option (List (String × String)))
    (pid : Option String) (s : St)
    (h : env.httpPutR s.nHttpPut = Except.ok ()) :
    send_response env event status reason data pid s =
      (Except.ok (buildResponseBody event status reason data pid),
       { s with nHttpPut := s.nHttpPut + 1
                httpPuts := s.httpPuts ++
                  [(event.responseURL,
                    buildResponseBody event status reason data pid)] }) := by
  unfold send_response httpPutM
  rw [h]

/-- update_ssm_parameters only advances the put_parameter counter and
appends SSM writes; every other state component is untouched. -/
lemma update_ssm_parameters_st (env : Env) (gd : GatewayRecord) (tid : String)
    (props : ResourceProps) (s : St) :
    ∃ k w, (update_ssm_parameters env gd tid props s).2 =
      { s with nPutParam := s.nPutParam + k, ssmWrites := s.ssmWrites ++ w } := by
  unfold update_ssm_parameters putParameterM
  rcases hu : gd.gatewayUrl with _ | u
  · rcases h0 : env.putParameterR s.nPutParam with e0 | v0
    · exact ⟨1, [], by simp [h0]⟩
    · rcases h1 : env.putParameterR (s.nPutParam + 1) with e1 | v1
      · exact ⟨2, [(props.ssmRoot ++ "/target_id", tid)], by simp [h0, h1]⟩
      · exact ⟨2, [(props.ssmRoot ++ "/target_id", tid),
                   (props.ssmRoot ++ "/gateway_id", gd.gatewayId)],
          by simp [h0, h1]⟩
  · by_cases hue : u = ""
    · subst hue
      rcases h0 : env.putParameterR s.nPutParam with e0 | v0
      · exact ⟨1, [], by simp [h0]⟩
      · rcases h1 : env.putParameterR (s.nPutParam + 1) with e1 | v1
        · exact ⟨2, [(props.ssmRoot ++ "/target_id", tid)], by simp [h0, h1]⟩
        · exact ⟨2, [(props.ssmRoot ++ "/target_id", tid),
                     (props.ssmRoot ++ "/gateway_id", gd.gatewayId)],
            by simp [h0, h1]⟩
    · rcases h0 : env.putParameterR s.nPutParam with e0 | v0
      · exact ⟨1, [], by simp [hue, h0]⟩
      · rcases h1 : env.putParameterR (s.nPutParam + 1) with e1 | v1
        · exact ⟨2, [(props.ssmRoot ++ "/gateway_url", u)],
            by simp [hue, h0, h1]⟩
        · rcases h2 : env.putParameterR (s.nPutParam + 1 + 1) with e2 | v2
          · exact ⟨3, [(props.ssmRoot ++ "/gateway_url", u),
                       (props.ssmRoot ++ "/target_id", tid)],
              by simp [hue, h0, h1, h2]⟩
          · exact ⟨3, [(props.ssmRoot ++ "/gateway_url", u),
                       (props.ssmRoot ++ "/target_id", tid),
                       (props.ssmRoot ++ "/gateway_id", gd.gatewayId)],
              by simp [hue, h0, h1, h2]⟩

/-- With a reliable parameter store, update_ssm_parameters succeeds. -/
lemma update_ssm_parameters_ok (env : Env) (gd : GatewayRecord) (tid : String)
    (props : ResourceProps) (s : St)
    (hput : ∀ n, env.putParameterR n = Except.ok ()) :
    (update_ssm_parameters env gd tid props s).1 = Except.ok () := by
  unfold update_ssm_parameters putParameterM
  rcases hu : gd.gatewayUrl with _ | u
  · simp [hput]
  · by_cases hue : u = "" <;> simp [hue, hput]

/-- A listing in which no record carries the requested name falls through
the lookup loop without any effect. -/
lemma findGatewayLoop_none (env : Env) (event : Event) (props : ResourceProps)
    (s : St) (gws : List GatewayRecord)
    (h : ∀ g ∈ gws, g.name ≠ props.gatewayName) :
    findGatewayLoop env event props s gws = (Except.ok none, s) := by
  induction gws with
  | nil => rfl
  | cons g rest ih =>
      unfold findGatewayLoop
      rw [if_neg (h g (by simp))]
      exact ih fun g' hg' => h g' (by simp [hg'])

/-- The lookup loop runs the existing-gateway block on the first record
whose name matches. -/
lemma findGatewayLoop_found (env : Env) (event : Event) (props : ResourceProps)
    (s : St) (pre : List GatewayRecord) (gw : GatewayRecord)
    (post : List GatewayRecord)
    (hpre : ∀ g ∈ pre, g.name ≠ props.gatewayName)
    (hgw : gw.name = props.gatewayName) :
    findGatewayLoop env event props s (pre ++ gw :: post) =
      existingGatewayBlock env event props gw s := by
  induction pre with
  | nil =>
      rw [List.nil_append]
      unfold findGatewayLoop
      rw [if_pos hgw]
  | cons g rest ih =>
      rw [List.cons_append]
      unfold findGatewayLoop
      rw [if_neg (hpre g (by simp))]
      exact ih fun g' hg' => hpre g' (by simp [hg'])

/-- Concrete resource properties used by the concrete runs below. -/
def propsDemo : ResourceProps :=
  { gatewayName := "demo", lambdaArn := "arn:aws:lambda:tool"
    apiSpec := "[]", gatewayRoleArn := "arn:aws:iam:role"
    cognitoClientId := "client-1", cognitoDiscoveryUrl := "https://disc.example"
    region := "us-east-1", ssmRoot := "/app/gw" }

/-- Oracle in which every external call succeeds with generic values. -/
def baseEnv : Env :=
  { listGatewaysR := fun _ => Except.ok []
    getGatewayR := fun _ => Except.ok
      { gatewayId := "gw-1", name := "demo", status := "READY"
        gatewayUrl := some "https://gw.example/mcp" }
    createGatewayR := fun _ => Except.ok "gw-new"
    deleteGatewayR := fun _ => Except.ok ()
    listGatewayTargetsR := fun _ => Except.ok []
    createGatewayTargetR := fun _ => Except.ok "tgt-1"
    updateGatewayTargetR := fun _ => Except.ok ()
    deleteGatewayTargetR := fun _ => Except.ok ()
    putParameterR := fun _ => Except.ok ()
    httpPutR := fun _ => Except.ok () }

/-- Concrete DELETE event with physical id gw-1. -/
def evDel : Event :=
  { requestType := "Delete", resourceProperties := propsDemo
    oldResourceProperties := none, physicalResourceId := some "gw-1"
    stackId := "stack-1", requestId := "req-1"
    logicalResourceId := "Gateway", responseURL := "https://callback.example/r" }

/-- Oracle whose target listing raises a network error during delete. -/
def envDelNet : Env :=
  { baseEnv with listGatewayTargetsR := fun _ => Except.error "network error" }

/-- Oracle in which the resources are already gone: target and gateway
deletion raise not-found errors. -/
def envDelGone : Env :=
  { baseEnv with
      listGatewayTargetsR := fun _ => Except.ok [{ targetId := "tgt-1" }]
      deleteGatewayTargetR := fun _ => Except.error "ResourceNotFoundException"
      deleteGatewayR := fun _ => Except.error "ResourceNotFoundException" }

/-- Claim C2: for every DELETE event whose physical id is present and whose
callback transport succeeds, the delete operation reports a SUCCESS outcome
whatever the remote target-listing, target-deletion and gateway-deletion
calls do — the oracle env is universally quantified, so every combination
of remote errors (already gone, network failure, ...) is covered. -/
theorem C2_delete_always_success (env : Env) (event : Event) (s : St)
    (pid : String) (hpid : event.physicalResourceId = some pid)
    (hhttp : ∀ n, env.httpPutR n = Except.ok ()) :
    (delete_gateway env event s).1 =
      Except.ok (buildResponseBody event "SUCCESS" none none (some pid)) ∧
    (buildResponseBody event "SUCCESS" none none (some pid)).Status =
      "SUCCESS" := by
  constructor
  · unfold delete_gateway
    rw [hpid]
    show (send_response env event "SUCCESS" none none (some pid)
      ((deleteAllAttempt env pid s).2)).1 = _
    rw [send_response_ok env event "SUCCESS" none none (some pid) _ (hhttp _)]
  · rfl

/-- Witness for C2: the theorem applied to an oracle raising a network
error while listing targets, and to an oracle whose resources are already
deleted; both report SUCCESS. -/
theorem C2_delete_always_success_witness :
    ((delete_gateway envDelNet evDel St.init).1 =
       Except.ok (buildResponseBody evDel "SUCCESS" none none (some "gw-1")) ∧
     (buildResponseBody evDel "SUCCESS" none none (some "gw-1")).Status =
       "SUCCESS") ∧
    ((delete_gateway envDelGone evDel St.init).1 =
       Except.ok (buildResponseBody evDel "SUCCESS" none none (some "gw-1")) ∧
     (buildResponseBody evDel "SUCCESS" none none (some "gw-1")).Status =
       "SUCCESS") :=
  ⟨C2_delete_always_success envDelNet evDel St.init "gw-1" rfl (fun _ => rfl),
   C2_delete_always_success envDelGone evDel St.init "gw-1" rfl (fun _ => rfl)⟩

/-- Claim C10: defaults of the callback body.  With no reason supplied the
Reason is "<status>: See CloudWatch logs"; with no physical resource id
supplied the PhysicalResourceId falls back to the event's, and to the
literal "NONE" when the event has none; Data defaults to the empty mapping;
and the body a successful send_response returns and PUTs is exactly the
built body. -/
theorem C10_send_response_defaults :
    (∀ (event : Event) (status : String),
      (buildResponseBody event status none none none).Reason =
        status ++ ": See CloudWatch logs") ∧
    (∀ (event : Event) (status p : String),
      (buildResponseBody { event with physicalResourceId := some p }
        status none none none).PhysicalResourceId = p) ∧
    (∀ (event : Event) (status : String),
      (buildResponseBody { event with physicalResourceId := none }
        status none none none).PhysicalResourceId = "NONE") ∧
    (∀ (event : Event) (status : String),
      (buildResponseBody event status none none none).Data = []) ∧
    (∀ (env : Env) (event : Event) (status : String) (reason : Option String)
        (data : Option (List (String × String))) (pid : Option String) (s : St),
      (send_response env event status reason data pid s).1 =
        (match env.httpPutR s.nHttpPut with
         | Except.ok _ =>
             Except.ok (buildResponseBody event status reason data pid)
         | Except.error e => Except.error e)) := by
  refine ⟨fun _ _ => rfl, fun _ _ _ => rfl, fun _ _ => rfl, fun _ _ => rfl,
    fun env event status reason data pid s => ?_⟩
  cases h : env.httpPutR s.nHttpPut <;> simp [send_response, httpPutM, h]

/-- Oracle whose n-th get_gateway poll reports the n-th status of the list
(defaulting to CREATING past its end); every other call succeeds. -/
def seqRecord (l : List String) (n : Nat) : GatewayRecord :=
  { gatewayId := "gw-1", name := "demo", status := l.getD n "CREATING"
    gatewayUrl := none }

/-- Oracle realising the status sequence via seqRecord. -/
def envSeq (l : List String) : Env :=
  { baseEnv with getGatewayR := fun n => Except.ok (seqRecord l n) }

/-- Claim C6: the readiness wait polls every 10 time-units up to 120.  For
the status sequence [CREATING, CREATING, READY] it returns normally on the
third poll after two sleeps; for [CREATING, FAILED] it fails on the second
poll with an error naming the status, at clock 10, far before the deadline;
a non-terminal status such as UPDATING keeps polling; and a gateway that
never leaves CREATING is polled 12 times and then raises the fatal timeout
error at clock 120. -/
theorem C6_wait_for_gateway_ready_behaviour :
    ((wait_for_gateway_ready (envSeq ["CREATING", "CREATING", "READY"])
        "gw-1" 120 St.init).1 = Except.ok () ∧
     (wait_for_gateway_ready (envSeq ["CREATING", "CREATING", "READY"])
        "gw-1" 120 St.init).2.nGetGateway = 3 ∧
     (wait_for_gateway_ready (envSeq ["CREATING", "CREATING", "READY"])
        "gw-1" 120 St.init).2.sleeps = [10, 10]) ∧
    ((wait_for_gateway_ready (envSeq ["CREATING", "FAILED"])
        "gw-1" 120 St.init).1 =
          Except.error "Gateway in unexpected status: FAILED" ∧
     (wait_for_gateway_ready (envSeq ["CREATING", "FAILED"])
        "gw-1" 120 St.init).2.nGetGateway = 2 ∧
     (wait_for_gateway_ready (envSeq ["CREATING", "FAILED"])
        "gw-1" 120 St.init).2.clock = 10) ∧
    ((wait_for_gateway_ready (envSeq ["CREATING", "UPDATING", "READY"])
        "gw-1" 120 St.init).1 = Except.ok () ∧
     (wait_for_gateway_ready (envSeq ["CREATING", "UPDATING", "READY"])
        "gw-1" 120 St.init).2.nGetGateway = 3) ∧
    ((wait_for_gateway_ready (envSeq []) "gw-1" 120 St.init).1 =
        Except.error "Gateway not ready after 120s" ∧
     (wait_for_gateway_ready (envSeq []) "gw-1" 120 St.init).2.nGetGateway
        = 12 ∧
     (wait_for_gateway_ready (envSeq []) "gw-1" 120 St.init).2.clock = 120) := by
  exact ⟨⟨rfl, rfl, rfl⟩, ⟨rfl, rfl, rfl⟩, ⟨rfl, rfl⟩, ⟨rfl, rfl, rfl⟩⟩

/-- Claim C5: create_target_with_retry with maxAttempts 5.  First part:
five transient failures (message containing CREATING or UPDATING) give five
create attempts, backoff sleeps 2 ^ 0 .. 2 ^ 4, and the descriptive fatal
error.  Second part: a non-transient first failure propagates unchanged
after exactly one attempt and no sleep.  Third part: a transient failure
followed by success retries after a 2 ^ 0 sleep and returns the target. -/
theorem C5_create_target_with_retry_policy :
    (∀ (env : Env) (gid arn spec : String) (s : St) (msg : Nat → String),
      (∀ k, k < 5 → env.createGatewayTargetR (s.nCreateTarget + k) =
        Except.error (msg k)) →
      (∀ k, k < 5 → (strContains (msg k) "CREATING" ||
        strContains (msg k) "UPDATING") = true) →
      (create_target_with_retry env gid arn spec 5 s).1 =
        Except.error "Failed to create target after 5 attempts" ∧
      (create_target_with_retry env gid arn spec 5 s).2.nCreateTarget =
        s.nCreateTarget + 5 ∧
      (create_target_with_retry env gid arn spec 5 s).2.sleeps =
        s.sleeps ++ [1, 2, 4, 8, 16]) ∧
    (∀ (env : Env) (gid arn spec : String) (s : St) (e : String),
      env.createGatewayTargetR s.nCreateTarget = Except.error e →
      strContains e "CREATING" = false → strContains e "UPDATING" = false →
      (create_target_with_retry env gid arn spec 5 s).1 = Except.error e ∧
      (create_target_with_retry env gid arn spec 5 s).2.nCreateTarget =
        s.nCreateTarget + 1 ∧
      (create_target_with_retry env gid arn spec 5 s).2.sleeps = s.sleeps) ∧
    (∀ (env : Env) (gid arn spec : String) (s : St) (e tid : String),
      env.createGatewayTargetR s.nCreateTarget = Except.error e →
      (strContains e "CREATING" || strContains e "UPDATING") = true →
      env.createGatewayTargetR (s.nCreateTarget + 1) = Except.ok tid →
      (create_target_with_retry env gid arn spec 5 s).1 = Except.ok tid ∧
      (create_target_with_retry env gid arn spec 5 s).2.sleeps =
        s.sleeps ++ [1]) := by
  refine ⟨?_, ?_, ?_⟩
  · intro env gid arn spec s msg h ht
    have h0 := h 0 (by omega); have h1 := h 1 (by omega)
    have h2 := h 2 (by omega); have h3 := h 3 (by omega)
    have h4 := h 4 (by omega)
    have t0 := ht 0 (by omega); have t1 := ht 1 (by omega)
    have t2 := ht 2 (by omega); have t3 := ht 3 (by omega)
    have t4 := ht 4 (by omega)
    rw [Nat.add_zero] at h0
    refine ⟨?_, ?_, ?_⟩ <;>
      (simp [create_target_with_retry, createTargetGo, callCreateTarget,
        sleepM, h0, h1, h2, h3, h4, t0, t1, t2, t3, t4]; try rfl)
  · intro env gid arn spec s e h hc hu
    refine ⟨?_, ?_, ?_⟩ <;>
      simp [create_target_with_retry, createTargetGo, callCreateTarget,
        sleepM, h, hc, hu]
  · intro env gid arn spec s e tid h ht hok
    refine ⟨?_, ?_⟩ <;>
      simp [create_target_with_retry, createTargetGo, callCreateTarget,
        sleepM, h, ht, hok]

/-- Oracle whose target creation always reports the parent as CREATING. -/
def envRetryAll : Env :=
  { baseEnv with
      createGatewayTargetR := fun _ => Except.error "Gateway is CREATING" }

/-- Oracle whose target creation raises an unrelated validation error. -/
def envValErr : Env :=
  { baseEnv with
      createGatewayTargetR := fun _ =>
        Except.error "ValidationException: bad schema" }

/-- Oracle whose target creation is transiently rejected once and then
succeeds. -/
def envRetryOnce : Env :=
  { baseEnv with
      createGatewayTargetR := fun n =>
        if n = 0 then Except.error "Gateway is still CREATING"
        else Except.ok "tgt-9" }

/-- Witness for C5: the three parts applied to a permanently-CREATING
oracle, a validation-error oracle and a transient-then-ok oracle. -/
theorem C5_create_target_with_retry_policy_witness :
    ((create_target_with_retry envRetryAll "gw-1" "arn" "[]" 5 St.init).1 =
        Except.error "Failed to create target after 5 attempts" ∧
     (create_target_with_retry envRetryAll "gw-1" "arn" "[]" 5
        St.init).2.nCreateTarget = St.init.nCreateTarget + 5 ∧
     (create_target_with_retry envRetryAll "gw-1" "arn" "[]" 5
        St.init).2.sleeps = St.init.sleeps ++ [1, 2, 4, 8, 16]) ∧
    ((create_target_with_retry envValErr "gw-1" "arn" "[]" 5 St.init).1 =
        Except.error "ValidationException: bad schema" ∧
     (create_target_with_retry envValErr "gw-1" "arn" "[]" 5
        St.init).2.nCreateTarget = St.init.nCreateTarget + 1 ∧
     (create_target_with_retry envValErr "gw-1" "arn" "[]" 5
        St.init).2.sleeps = St.init.sleeps) ∧
    ((create_target_with_retry envRetryOnce "gw-1" "arn" "[]" 5 St.init).1 =
        Except.ok "tgt-9" ∧
     (create_target_with_retry envRetryOnce "gw-1" "arn" "[]" 5
        St.init).2.sleeps = St.init.sleeps ++ [1]) :=
  ⟨C5_create_target_with_retry_policy.1 envRetryAll "gw-1" "arn" "[]" St.init
      (fun _ => "Gateway is CREATING") (fun _ _ => rfl) (fun _ _ => rfl),
   C5_create_target_with_retry_policy.2.1 envValErr "gw-1" "arn" "[]" St.init
      "ValidationException: bad schema" rfl rfl rfl,
   C5_create_target_with_retry_policy.2.2 envRetryOnce "gw-1" "arn" "[]"
      St.init "Gateway is still CREATING" "tgt-9" rfl rfl rfl⟩

/-- Event of an unknown request kind. -/
def evBogus : Event :=
  { requestType := "Bogus", resourceProperties := propsDemo
    oldResourceProperties := none, physicalResourceId := none
    stackId := "stack-1", requestId := "req-1"
    logicalResourceId := "Gateway", responseURL := "https://callback.example/r" }

/-- Concrete CREATE event. -/
def evCreate : Event :=
  { requestType := "Create", resourceProperties := propsDemo
    oldResourceProperties := none, physicalResourceId := none
    stackId := "stack-1", requestId := "req-1"
    logicalResourceId := "Gateway", responseURL := "https://callback.example/r" }

/-- Oracle whose callback transport always raises. -/
def envPutFails : Env :=
  { baseEnv with
      httpPutR := fun _ => Except.error "connection reset during callback PUT" }

/-- Oracle whose gateway creation raises an exception with an empty
message. -/
def envEmptyMsg : Env :=
  { baseEnv with createGatewayR := fun _ => Except.error "" }

/-- Claim C1 counterexample.  First conjunct: on an unknown event kind the
raised ValueError is caught, but delivering the FAILED callback itself
raises, and that exception escapes the invocation boundary — the handler
run ends in an uncaught error, refuting the claim that no exception escapes
for any input event.  Second and third conjuncts: when the caught
exception's message is empty, the FAILED outcome's Reason is the
"FAILED: See CloudWatch logs" default (Python r or default on the falsy
empty string), not the exception's message. -/
theorem C1_escape_counterexample :
    (handler envPutFails evBogus St.init).1 =
      Except.error "connection reset during callback PUT" ∧
    (handler envEmptyMsg evCreate St.init).1 =
      Except.ok (buildResponseBody evCreate "FAILED" (some "") none none) ∧
    (buildResponseBody evCreate "FAILED" (some "") none none).Reason =
      "FAILED: See CloudWatch logs" := by
  exact ⟨rfl, rfl, rfl⟩

/-- Claim C1 (amended): whenever the dispatch of an inbound event raises —
anywhere in the reconciliation chain, including for an unknown event kind —
and the callback transport delivers the FAILED response, and the
exception's message is non-empty, the handler catches the exception and
returns a FAILED Outcome whose Reason is exactly that message; no
exception escapes in that case. -/
theorem C1_dispatcher_boundary_amended (env : Env) (event : Event) (s : St)
    (e : String) (htry : (tryDispatch env event s).1 = Except.error e)
    (hhttp : ∀ n, env.httpPutR n = Except.ok ()) (hne : e ≠ "") :
    (handler env event s).1 =
      Except.ok (buildResponseBody event "FAILED" (some e) none none) ∧
    (buildResponseBody event "FAILED" (some e) none none).Status = "FAILED" ∧
    (buildResponseBody event "FAILED" (some e) none none).Reason = e := by
  refine ⟨?_, rfl, ?_⟩
  · unfold handler
    rcases hp : tryDispatch env event s with ⟨r, s1⟩
    rw [hp] at htry
    simp only at htry
    subst htry
    show (send_response env event "FAILED" (some e) none none s1).1 = _
    rw [send_response_ok env event "FAILED" (some e) none none s1 (hhttp _)]
  · simp [buildResponseBody, strOr, hne]

/-- Witness for the amended C1: an unknown request kind with a reliable
callback transport yields a caught exception and a FAILED outcome carrying
the ValueError message. -/
theorem C1_dispatcher_boundary_witness :
    (handler baseEnv evBogus St.init).1 =
      Except.ok (buildResponseBody evBogus "FAILED"
        (some "Unknown request type: Bogus") none none) ∧
    (buildResponseBody evBogus "FAILED"
        (some "Unknown request type: Bogus") none none).Status = "FAILED" ∧
    (buildResponseBody evBogus "FAILED"
        (some "Unknown request type: Bogus") none none).Reason =
      "Unknown request type: Bogus" :=
  C1_dispatcher_boundary_amended baseEnv evBogus St.init
    "Unknown request type: Bogus" rfl (fun _ => rfl) (by decide)

/-- Properties requesting the new gateway name beta. -/
def propsBeta : ResourceProps := { propsDemo with gatewayName := "beta" }

/-- UPDATE event renaming the gateway demo -> beta, physical id gw-old. -/
def evRename : Event :=
  { requestType := "Update", resourceProperties := propsBeta
    oldResourceProperties := some propsDemo
    physicalResourceId := some "gw-old"
    stackId := "stack-1", requestId := "req-1"
    logicalResourceId := "Gateway", responseURL := "https://callback.example/r" }

/-- UPDATE event keeping the gateway name demo, physical id gw-1. -/
def evSameName : Event :=
  { requestType := "Update", resourceProperties := propsDemo
    oldResourceProperties := some propsDemo
    physicalResourceId := some "gw-1"
    stackId := "stack-1", requestId := "req-1"
    logicalResourceId := "Gateway", responseURL := "https://callback.example/r" }

/-- Claim C3 (code bug): on an UPDATE whose GatewayName changed, the
invocation delivers TWO callbacks to the event's ResponseURL — the inner
delete_gateway call sends a premature SUCCESS for the old physical id, and
the subsequent create_gateway sends a second SUCCESS for the new one — so
the claimed exactly-one-callback-per-invocation property fails on this
path, while a same-name UPDATE does deliver exactly one. -/
theorem C3_two_callbacks_on_rename :
    (handler baseEnv evRename St.init).2.httpPuts.length = 2 ∧
    ((handler baseEnv evRename St.init).2.httpPuts.map
      (fun p => p.2.Status)) = ["SUCCESS", "SUCCESS"] ∧
    ((handler baseEnv evRename St.init).2.httpPuts.map
      (fun p => p.2.PhysicalResourceId)) = ["gw-old", "gw-new"] ∧
    ((handler baseEnv evRename St.init).2.httpPuts.map
      (fun p => p.1)) = [evRename.responseURL, evRename.responseURL] ∧
    (handler baseEnv evSameName St.init).2.httpPuts.length = 1 := by
  exact ⟨rfl, rfl, rfl, rfl, rfl⟩

/-- Claim C4: update semantics.  Part one: when old and new GatewayName
differ, the operation deletes the old physical id and then creates a new
gateway — the recorded control-plane calls are exactly the teardown of the
old id followed by the creation sequence for the new request — and the
outcome's physical id is the new gateway's id, different from the original.
Part two: when the names are equal, no gateway is created or deleted, the
only target mutation is a single update of the existing target addressed to
the unchanged physical id, and the outcome is SUCCESS carrying that same
physical id. -/
theorem C4_update_rename_vs_inplace :
    (∀ (env : Env) (event : Event) (props : ResourceProps) (s : St)
       (oldPid newId tid : String) (op : ResourceProps)
       (gws : List GatewayRecord) (gdR gd : GatewayRecord),
      event.physicalResourceId = some oldPid →
      event.oldResourceProperties = some op →
      op.gatewayName ≠ props.gatewayName →
      env.listGatewayTargetsR s.nListTargets = Except.ok [] →
      env.deleteGatewayR s.nDeleteGateway = Except.ok () →
      env.listGatewaysR s.nListGateways = Except.ok gws →
      (∀ g ∈ gws, g.name ≠ props.gatewayName) →
      env.createGatewayR s.nCreateGateway = Except.ok newId →
      newId ≠ oldPid → newId ≠ "" →
      env.getGatewayR s.nGetGateway = Except.ok gdR → gdR.status = "READY" →
      env.getGatewayR (s.nGetGateway + 1) = Except.ok gd →
      env.createGatewayTargetR s.nCreateTarget = Except.ok tid →
      (∀ n, env.putParameterR n = Except.ok ()) →
      (∀ n, env.httpPutR n = Except.ok ()) →
      (update_gateway env event props s).1 = Except.ok
        (buildResponseBody event "SUCCESS" none
          (some [("GatewayId", newId),
                 ("GatewayUrl", resolveGatewayUrl gd.gatewayUrl newId
                    props.region),
                 ("TargetId", tid)]) (some newId)) ∧
      (update_gateway env event props s).2.apiCalls = s.apiCalls ++
        [ApiCall.listGatewayTargets oldPid, ApiCall.deleteGateway oldPid,
         ApiCall.listGateways,
         ApiCall.createGateway props.gatewayName props.gatewayRoleArn
           props.cognitoClientId props.cognitoDiscoveryUrl,
         ApiCall.getGateway newId, ApiCall.getGateway newId,
         ApiCall.createGatewayTarget newId props.lambdaArn props.apiSpec] ∧
      (buildResponseBody event "SUCCESS" none
          (some [("GatewayId", newId),
                 ("GatewayUrl", resolveGatewayUrl gd.gatewayUrl newId
                    props.region),
                 ("TargetId", tid)])
          (some newId)).PhysicalResourceId = newId ∧
      newId ≠ oldPid) ∧
    (∀ (env : Env) (event : Event) (props : ResourceProps) (s : St)
       (pid : String) (op : ResourceProps) (t0 : TargetRecord)
       (ts : List TargetRecord) (gd : GatewayRecord),
      event.physicalResourceId = some pid →
      event.oldResourceProperties = some op →
      op.gatewayName = props.gatewayName →
      env.listGatewayTargetsR s.nListTargets = Except.ok (t0 :: ts) →
      env.updateGatewayTargetR s.nUpdateTarget = Except.ok () →
      env.getGatewayR s.nGetGateway = Except.ok gd →
      (∀ n, env.putParameterR n = Except.ok ()) →
      (∀ n, env.httpPutR n = Except.ok ()) →
      (update_gateway env event props s).1 = Except.ok
        (buildResponseBody event "SUCCESS" none
          (some [("GatewayId", pid),
                 ("GatewayUrl", resolveGatewayUrl gd.gatewayUrl pid
                    props.region),
                 ("TargetId", t0.targetId)]) (some pid)) ∧
      (update_gateway env event props s).2.apiCalls = s.apiCalls ++
        [ApiCall.listGatewayTargets pid,
         ApiCall.updateGatewayTarget pid t0.targetId props.lambdaArn
           props.apiSpec,
         ApiCall.getGateway pid] ∧
      (update_gateway env event props s).2.nCreateGateway =
        s.nCreateGateway ∧
      (update_gateway env event props s).2.nDeleteGateway =
        s.nDeleteGateway ∧
      (update_gateway env event props s).2.nCreateTarget = s.nCreateTarget ∧
      (update_gateway env event props s).2.nUpdateTarget =
        s.nUpdateTarget + 1 ∧
      (buildResponseBody event "SUCCESS" none
          (some [("GatewayId", pid),
                 ("GatewayUrl", resolveGatewayUrl gd.gatewayUrl pid
                    props.region),
                 ("TargetId", t0.targetId)])
          (some pid)).Status = "SUCCESS" ∧
      (buildResponseBody event "SUCCESS" none
          (some [("GatewayId", pid),
                 ("GatewayUrl", resolveGatewayUrl gd.gatewayUrl pid
                    props.region),
                 ("TargetId", t0.targetId)])
          (some pid)).PhysicalResourceId = pid) := by
  constructor
  · intro env event props s oldPid newId tid op gws gdR gd hpid hold hname
      hlt hdel hlg hnomatch hcg hfresh hidne hpoll hready hgd hct hput hhttp
    have hfind : ∀ s', findGatewayLoop env event props s' gws =
        (Except.ok none, s') :=
      fun s' => findGatewayLoop_none env event props s' gws hnomatch
    rcases hgu : gd.gatewayUrl with _ | u
    · refine ⟨?_, ?_, ?_, hfresh⟩ <;>
        simp [update_gateway, delete_gateway, deleteAllAttempt,
          deleteTargetsLoop, callListTargets, callDeleteGateway,
          send_response, httpPutM, create_gateway, callListGateways, hfind,
          createNewGateway, callCreateGateway, wait_for_gateway_ready,
          wait_loop, callGetGateway, create_target_with_retry,
          createTargetGo, callCreateTarget, update_ssm_parameters,
          putParameterM, buildResponseBody, strOr, resolveGatewayUrl,
          sleepM, hpid, hold, hname, hlt, hdel, hlg, hcg, hpoll, hready,
          hgd, hct, hput, hhttp, hgu, hidne, List.append_assoc]
    · by_cases hue : u = "" <;>
        refine ⟨?_, ?_, ?_, hfresh⟩ <;>
        simp [update_gateway, delete_gateway, deleteAllAttempt,
          deleteTargetsLoop, callListTargets, callDeleteGateway,
          send_response, httpPutM, create_gateway, callListGateways, hfind,
          createNewGateway, callCreateGateway, wait_for_gateway_ready,
          wait_loop, callGetGateway, create_target_with_retry,
          createTargetGo, callCreateTarget, update_ssm_parameters,
          putParameterM, buildResponseBody, strOr, resolveGatewayUrl,
          sleepM, hpid, hold, hname, hlt, hdel, hlg, hcg, hpoll, hready,
          hgd, hct, hput, hhttp, hgu, hue, hidne, List.append_assoc]
  · intro env event props s pid op t0 ts gd hpid hold hname hlt hupd hget
      hput hhttp
    rcases hgu : gd.gatewayUrl with _ | u
    · refine ⟨?_, ?_, ?_, ?_, ?_, ?_, rfl, ?_⟩ <;>
        simp [update_gateway, create_or_update_target, callListTargets,
          callUpdateTarget, callGetGateway, send_response, httpPutM,
          update_ssm_parameters, putParameterM, buildResponseBody, strOr,
          resolveGatewayUrl, hpid, hold, hname, hlt, hupd, hget, hput,
          hhttp, hgu, List.append_assoc]
    · by_cases hue : u = "" <;>
        refine ⟨?_, ?_, ?_, ?_, ?_, ?_, rfl, ?_⟩ <;>
        simp [update_gateway, create_or_update_target, callListTargets,
          callUpdateTarget, callGetGateway, send_response, httpPutM,
          update_ssm_parameters, putParameterM, buildResponseBody, strOr,
          resolveGatewayUrl, hpid, hold, hname, hlt, hupd, hget, hput,
          hhttp, hgu, hue, List.append_assoc]

/-- The READY gateway record that baseEnv returns from get_gateway. -/
def gwReady : GatewayRecord :=
  { gatewayId := "gw-1", name := "demo", status := "READY"
    gatewayUrl := some "https://gw.example/mcp" }

/-- Oracle with one existing target on the gateway. -/
def envInplace : Env :=
  { baseEnv with
      listGatewayTargetsR := fun _ => Except.ok [{ targetId := "tgt-1" }] }

/-- Witness for C4: the rename part applied to a concrete rename UPDATE
(demo -> beta) and the in-place part applied to a same-name UPDATE with one
existing target. -/
theorem C4_update_rename_vs_inplace_witness :
    ((update_gateway baseEnv evRename propsBeta St.init).1 = Except.ok
        (buildResponseBody evRename "SUCCESS" none
          (some [("GatewayId", "gw-new"),
                 ("GatewayUrl", resolveGatewayUrl gwReady.gatewayUrl "gw-new"
                    propsBeta.region),
                 ("TargetId", "tgt-1")]) (some "gw-new")) ∧
     (update_gateway baseEnv evRename propsBeta St.init).2.apiCalls =
        St.init.apiCalls ++
        [ApiCall.listGatewayTargets "gw-old", ApiCall.deleteGateway "gw-old",
         ApiCall.listGateways,
         ApiCall.createGateway propsBeta.gatewayName propsBeta.gatewayRoleArn
           propsBeta.cognitoClientId propsBeta.cognitoDiscoveryUrl,
         ApiCall.getGateway "gw-new", ApiCall.getGateway "gw-new",
         ApiCall.createGatewayTarget "gw-new" propsBeta.lambdaArn
           propsBeta.apiSpec] ∧
     (buildResponseBody evRename "SUCCESS" none
          (some [("GatewayId", "gw-new"),
                 ("GatewayUrl", resolveGatewayUrl gwReady.gatewayUrl "gw-new"
                    propsBeta.region),
                 ("TargetId", "tgt-1")])
          (some "gw-new")).PhysicalResourceId = "gw-new" ∧
     ("gw-new" : String) ≠ "gw-old") ∧
    ((update_gateway envInplace evSameName propsDemo St.init).1 = Except.ok
        (buildResponseBody evSameName "SUCCESS" none
          (some [("GatewayId", "gw-1"),
                 ("GatewayUrl", resolveGatewayUrl gwReady.gatewayUrl "gw-1"
                    propsDemo.region),
                 ("TargetId", TargetRecord.targetId { targetId := "tgt-1" })])
          (some "gw-1")) ∧
     (update_gateway envInplace evSameName propsDemo St.init).2.apiCalls =
        St.init.apiCalls ++
        [ApiCall.listGatewayTargets "gw-1",
         ApiCall.updateGatewayTarget "gw-1"
           (TargetRecord.targetId { targetId := "tgt-1" })
           propsDemo.lambdaArn propsDemo.apiSpec,
         ApiCall.getGateway "gw-1"] ∧
     (update_gateway envInplace evSameName propsDemo St.init).2.nCreateGateway
        = St.init.nCreateGateway ∧
     (update_gateway envInplace evSameName propsDemo St.init).2.nDeleteGateway
        = St.init.nDeleteGateway ∧
     (update_gateway envInplace evSameName propsDemo St.init).2.nCreateTarget
        = St.init.nCreateTarget ∧
     (update_gateway envInplace evSameName propsDemo St.init).2.nUpdateTarget
        = St.init.nUpdateTarget + 1 ∧
     (buildResponseBody evSameName "SUCCESS" none
          (some [("GatewayId", "gw-1"),
                 ("GatewayUrl", resolveGatewayUrl gwReady.gatewayUrl "gw-1"
                    propsDemo.region),
                 ("TargetId", TargetRecord.targetId { targetId := "tgt-1" })])
          (some "gw-1")).Status = "SUCCESS" ∧
     (buildResponseBody evSameName "SUCCESS" none
          (some [("GatewayId", "gw-1"),
                 ("GatewayUrl", resolveGatewayUrl gwReady.gatewayUrl "gw-1"
                    propsDemo.region),
                 ("TargetId", TargetRecord.targetId { targetId := "tgt-1" })])
          (some "gw-1")).PhysicalResourceId = "gw-1") :=
  ⟨C4_update_rename_vs_inplace.1 baseEnv evRename propsBeta St.init
      "gw-old" "gw-new" "tgt-1" propsDemo [] gwReady gwReady
      rfl rfl (by decide) rfl rfl rfl (by simp) rfl (by decide) (by decide)
      rfl rfl rfl rfl (fun _ => rfl) (fun _ => rfl),
   C4_update_rename_vs_inplace.2 envInplace evSameName propsDemo St.init
      "gw-1" propsDemo { targetId := "tgt-1" } [] gwReady
      rfl rfl rfl rfl rfl rfl (fun _ => rfl) (fun _ => rfl)⟩

/-- Claim C7: idempotent create.  When the gateway listing already contains
a record with the requested GatewayName (first match gw), create issues no
gateway-create call, performs no readiness wait (no sleep, no clock
advance), creates no additional target (it updates the one existing
target in place), and reports SUCCESS with the listed gateway's id — so a
second create with the same name again returns that same listed id, and the
single-target invariant is preserved. -/
theorem C7_create_idempotent_short_circuit (env : Env) (event : Event)
    (props : ResourceProps) (s : St) (pre post : List GatewayRecord)
    (gw gd : GatewayRecord) (t0 : TargetRecord) (ts : List TargetRecord)
    (hlg : env.listGatewaysR s.nListGateways = Except.ok (pre ++ gw :: post))
    (hpre : ∀ g ∈ pre, g.name ≠ props.gatewayName)
    (hgw : gw.name = props.gatewayName)
    (hget : env.getGatewayR s.nGetGateway = Except.ok gd)
    (hlt : env.listGatewayTargetsR s.nListTargets = Except.ok (t0 :: ts))
    (hupd : env.updateGatewayTargetR s.nUpdateTarget = Except.ok ())
    (hput : ∀ n, env.putParameterR n = Except.ok ())
    (hhttp : ∀ n, env.httpPutR n = Except.ok ())
    (hidne : gw.gatewayId ≠ "") :
    (create_gateway env event props s).1 = Except.ok
      (buildResponseBody event "SUCCESS" none
        (some [("GatewayId", gw.gatewayId),
               ("GatewayUrl", resolveGatewayUrl gd.gatewayUrl gw.gatewayId
                  props.region),
               ("TargetId", t0.targetId)]) (some gw.gatewayId)) ∧
    (create_gateway env event props s).2.nCreateGateway = s.nCreateGateway ∧
    (create_gateway env event props s).2.sleeps = s.sleeps ∧
    (create_gateway env event props s).2.clock = s.clock ∧
    (create_gateway env event props s).2.nCreateTarget = s.nCreateTarget ∧
    (create_gateway env event props s).2.nUpdateTarget =
      s.nUpdateTarget + 1 ∧
    (buildResponseBody event "SUCCESS" none
        (some [("GatewayId", gw.gatewayId),
               ("GatewayUrl", resolveGatewayUrl gd.gatewayUrl gw.gatewayId
                  props.region),
               ("TargetId", t0.targetId)])
        (some gw.gatewayId)).PhysicalResourceId = gw.gatewayId ∧
    (buildResponseBody event "SUCCESS" none
        (some [("GatewayId", gw.gatewayId),
               ("GatewayUrl", resolveGatewayUrl gd.gatewayUrl gw.gatewayId
                  props.region),
               ("TargetId", t0.targetId)])
        (some gw.gatewayId)).Status = "SUCCESS" := by
  have hfound : ∀ s', findGatewayLoop env event props s' (pre ++ gw :: post)
      = existingGatewayBlock env event props gw s' :=
    fun s' => findGatewayLoop_found env event props s' pre gw post hpre hgw
  rcases hgu : gd.gatewayUrl with _ | u
  · refine ⟨?_, ?_, ?_, ?_, ?_, ?_, ?_, rfl⟩ <;>
      simp [create_gateway, callListGateways, hlg, hfound,
        existingGatewayBlock, callGetGateway, hget, create_or_update_target,
        callListTargets, hlt, callUpdateTarget, hupd, update_ssm_parameters,
        putParameterM, hput, send_response, httpPutM, hhttp,
        buildResponseBody, strOr, resolveGatewayUrl, hgu, hidne,
        List.append_assoc]
  · by_cases hue : u = "" <;>
      refine ⟨?_, ?_, ?_, ?_, ?_, ?_, ?_, rfl⟩ <;>
      simp [create_gateway, callListGateways, hlg, hfound,
        existingGatewayBlock, callGetGateway, hget, create_or_update_target,
        callListTargets, hlt, callUpdateTarget, hupd, update_ssm_parameters,
        putParameterM, hput, send_response, httpPutM, hhttp,
        buildResponseBody, strOr, resolveGatewayUrl, hgu, hue, hidne,
        List.append_assoc]

/-- Oracle that lists one existing gateway named demo with one target. -/
def envIdem : Env :=
  { baseEnv with
      listGatewaysR := fun _ => Except.ok [gwReady]
      listGatewayTargetsR := fun _ => Except.ok [{ targetId := "tgt-1" }] }

/-- Witness for C7: a CREATE for the already-listed gateway demo. -/
theorem C7_create_idempotent_short_circuit_witness :
    (create_gateway envIdem evCreate propsDemo St.init).1 = Except.ok
      (buildResponseBody evCreate "SUCCESS" none
        (some [("GatewayId", gwReady.gatewayId),
               ("GatewayUrl", resolveGatewayUrl gwReady.gatewayUrl
                  gwReady.gatewayId propsDemo.region),
               ("TargetId",
                TargetRecord.targetId { targetId := "tgt-1" })])
        (some gwReady.gatewayId)) ∧
    (create_gateway envIdem evCreate propsDemo St.init).2.nCreateGateway =
      St.init.nCreateGateway ∧
    (create_gateway envIdem evCreate propsDemo St.init).2.sleeps =
      St.init.sleeps ∧
    (create_gateway envIdem evCreate propsDemo St.init).2.clock =
      St.init.clock ∧
    (create_gateway envIdem evCreate propsDemo St.init).2.nCreateTarget =
      St.init.nCreateTarget ∧
    (create_gateway envIdem evCreate propsDemo St.init).2.nUpdateTarget =
      St.init.nUpdateTarget + 1 ∧
    (buildResponseBody evCreate "SUCCESS" none
        (some [("GatewayId", gwReady.gatewayId),
               ("GatewayUrl", resolveGatewayUrl gwReady.gatewayUrl
                  gwReady.gatewayId propsDemo.region),
               ("TargetId",
                TargetRecord.targetId { targetId := "tgt-1" })])
        (some gwReady.gatewayId)).PhysicalResourceId = gwReady.gatewayId ∧
    (buildResponseBody evCreate "SUCCESS" none
        (some [("GatewayId", gwReady.gatewayId),
               ("GatewayUrl", resolveGatewayUrl gwReady.gatewayUrl
                  gwReady.gatewayId propsDemo.region),
               ("TargetId",
                TargetRecord.targetId { targetId := "tgt-1" })])
        (some gwReady.gatewayId)).Status = "SUCCESS" :=
  C7_create_idempotent_short_circuit envIdem evCreate propsDemo St.init
    [] [] gwReady gwReady { targetId := "tgt-1" } []
    rfl (by simp) rfl rfl rfl rfl (fun _ => rfl) (fun _ => rfl) (by decide)

/-- READY gateway record whose URL field is present but empty. -/
def gwEmptyUrl : GatewayRecord :=
  { gatewayId := "gw-1", name := "demo", status := "READY"
    gatewayUrl := some "" }

/-- Oracle for the update path returning the empty-URL record. -/
def envEmptyUrl : Env :=
  { envInplace with getGatewayR := fun _ => Except.ok gwEmptyUrl }

/-- Claim C8 counterexample: a gateway record whose URL field is present
(as the empty string) does not get its API-reported URL into the outcome —
the code treats the falsy empty string as absent and reports the
deterministic template instead, refuting the claim that the outcome URL
equals the API-reported URL whenever the field is present. -/
theorem C8_empty_url_counterexample :
    gwEmptyUrl.gatewayUrl = some "" ∧
    (update_gateway envEmptyUrl evSameName propsDemo St.init).1 = Except.ok
      (buildResponseBody evSameName "SUCCESS" none
        (some [("GatewayId", "gw-1"),
               ("GatewayUrl", fallbackUrl "gw-1" "us-east-1"),
               ("TargetId", "tgt-1")]) (some "gw-1")) ∧
    fallbackUrl "gw-1" "us-east-1" ≠ "" := by
  exact ⟨rfl, rfl, by decide⟩

/-- Claim C8 (amended): on the create, existing-gateway and update paths
alike, the URL reported in the outcome Data is resolveGatewayUrl of the
record's URL field — the API-reported URL when present and non-empty,
otherwise (absent or empty) exactly the deterministic template
https://{id}.gateway.bedrock-agentcore.{region}.amazonaws.com/mcp built
from the gateway id and the request's region. -/
theorem C8_url_resolution_amended :
    (∀ (env : Env) (event : Event) (props : ResourceProps) (s : St)
       (gws : List GatewayRecord) (newId tid : String)
       (gdR gd : GatewayRecord),
      env.listGatewaysR s.nListGateways = Except.ok gws →
      (∀ g ∈ gws, g.name ≠ props.gatewayName) →
      env.createGatewayR s.nCreateGateway = Except.ok newId →
      env.getGatewayR s.nGetGateway = Except.ok gdR → gdR.status = "READY" →
      env.getGatewayR (s.nGetGateway + 1) = Except.ok gd →
      env.createGatewayTargetR s.nCreateTarget = Except.ok tid →
      (∀ n, env.putParameterR n = Except.ok ()) →
      (∀ n, env.httpPutR n = Except.ok ()) →
      (create_gateway env event props s).1 = Except.ok
        (buildResponseBody event "SUCCESS" none
          (some [("GatewayId", newId),
                 ("GatewayUrl", resolveGatewayUrl gd.gatewayUrl newId
                    props.region),
                 ("TargetId", tid)]) (some newId))) ∧
    (∀ (env : Env) (event : Event) (props : ResourceProps) (s : St)
       (pre post : List GatewayRecord) (gw gd : GatewayRecord)
       (t0 : TargetRecord) (ts : List TargetRecord),
      env.listGatewaysR s.nListGateways = Except.ok (pre ++ gw :: post) →
      (∀ g ∈ pre, g.name ≠ props.gatewayName) →
      gw.name = props.gatewayName →
      env.getGatewayR s.nGetGateway = Except.ok gd →
      env.listGatewayTargetsR s.nListTargets = Except.ok (t0 :: ts) →
      env.updateGatewayTargetR s.nUpdateTarget = Except.ok () →
      (∀ n, env.putParameterR n = Except.ok ()) →
      (∀ n, env.httpPutR n = Except.ok ()) →
      (create_gateway env event props s).1 = Except.ok
        (buildResponseBody event "SUCCESS" none
          (some [("GatewayId", gw.gatewayId),
                 ("GatewayUrl", resolveGatewayUrl gd.gatewayUrl gw.gatewayId
                    props.region),
                 ("TargetId", t0.targetId)]) (some gw.gatewayId))) ∧
    (∀ (env : Env) (event : Event) (props : ResourceProps) (s : St)
       (pid : String) (op : ResourceProps) (t0 : TargetRecord)
       (ts : List TargetRecord) (gd : GatewayRecord),
      event.physicalResourceId = some pid →
      event.oldResourceProperties = some op →
      op.gatewayName = props.gatewayName →
      env.listGatewayTargetsR s.nListTargets = Except.ok (t0 :: ts) →
      env.updateGatewayTargetR s.nUpdateTarget = Except.ok () →
      env.getGatewayR s.nGetGateway = Except.ok gd →
      (∀ n, env.putParameterR n = Except.ok ()) →
      (∀ n, env.httpPutR n = Except.ok ()) →
      (update_gateway env event props s).1 = Except.ok
        (buildResponseBody event "SUCCESS" none
          (some [("GatewayId", pid),
                 ("GatewayUrl", resolveGatewayUrl gd.gatewayUrl pid
                    props.region),
                 ("TargetId", t0.targetId)]) (some pid))) ∧
    (∀ v gid region : String, resolveGatewayUrl (some v) gid region =
      if v = "" then fallbackUrl gid region else v) ∧
    (∀ gid region : String, resolveGatewayUrl none gid region =
      fallbackUrl gid region) ∧
    (∀ gid region : String, fallbackUrl gid region =
      "https://" ++ gid ++ ".gateway.bedrock-agentcore." ++ region ++
        ".amazonaws.com/mcp") := by
  refine ⟨?_, ?_, ?_, fun v gid region => rfl, fun gid region => rfl,
    fun gid region => rfl⟩
  · intro env event props s gws newId tid gdR gd hlg hnomatch hcg hpoll
      hready hgd hct hput hhttp
    have hfind : ∀ s', findGatewayLoop env event props s' gws =
        (Except.ok none, s') :=
      fun s' => findGatewayLoop_none env event props s' gws hnomatch
    rcases hgu : gd.gatewayUrl with _ | u
    · simp [create_gateway, callListGateways, hlg, hfind, createNewGateway,
        callCreateGateway, hcg, wait_for_gateway_ready, wait_loop,
        callGetGateway, hpoll, hready, hgd, create_target_with_retry,
        createTargetGo, callCreateTarget, hct, update_ssm_parameters,
        putParameterM, hput, send_response, httpPutM, hhttp, sleepM, hgu]
    · by_cases hue : u = "" <;>
        simp [create_gateway, callListGateways, hlg, hfind,
          createNewGateway, callCreateGateway, hcg, wait_for_gateway_ready,
          wait_loop, callGetGateway, hpoll, hready, hgd,
          create_target_with_retry, createTargetGo, callCreateTarget, hct,
          update_ssm_parameters, putParameterM, hput, send_response,
          httpPutM, hhttp, sleepM, hgu, hue]
  · intro env event props s pre post gw gd t0 ts hlg hpre hgw hget hlt hupd
      hput hhttp
    have hfound : ∀ s', findGatewayLoop env event props s'
        (pre ++ gw :: post) = existingGatewayBlock env event props gw s' :=
      fun s' => findGatewayLoop_found env event props s' pre gw post hpre hgw
    rcases hgu : gd.gatewayUrl with _ | u
    · simp [create_gateway, callListGateways, hlg, hfound,
        existingGatewayBlock, callGetGateway, hget, create_or_update_target,
        callListTargets, hlt, callUpdateTarget, hupd, update_ssm_parameters,
        putParameterM, hput, send_response, httpPutM, hhttp, hgu]
    · by_cases hue : u = "" <;>
        simp [create_gateway, callListGateways, hlg, hfound,
          existingGatewayBlock, callGetGateway, hget,
          create_or_update_target, callListTargets, hlt, callUpdateTarget,
          hupd, update_ssm_parameters, putParameterM, hput, send_response,
          httpPutM, hhttp, hgu, hue]
  · intro env event props s pid op t0 ts gd hpid hold hname hlt hupd hget
      hput hhttp
    rcases hgu : gd.gatewayUrl with _ | u
    · simp [update_gateway, hpid, hold, hname, create_or_update_target,
        callListTargets, hlt, callUpdateTarget, hupd, callGetGateway, hget,
        update_ssm_parameters, putParameterM, hput, send_response, httpPutM,
        hhttp, hgu]
    · by_cases hue : u = "" <;>
        simp [update_gateway, hpid, hold, hname, create_or_update_target,
          callListTargets, hlt, callUpdateTarget, hupd, callGetGateway,
          hget, update_ssm_parameters, putParameterM, hput, send_response,
          httpPutM, hhttp, hgu, hue]

/-- Witness for the amended C8: the three paths applied to concrete runs
(fresh create, already-listed create, in-place update). -/
theorem C8_url_resolution_amended_witness :
    ((create_gateway baseEnv evCreate propsDemo St.init).1 = Except.ok
      (buildResponseBody evCreate "SUCCESS" none
        (some [("GatewayId", "gw-new"),
               ("GatewayUrl", resolveGatewayUrl gwReady.gatewayUrl "gw-new"
                  propsDemo.region),
               ("TargetId", "tgt-1")]) (some "gw-new"))) ∧
    ((create_gateway envIdem evCreate propsDemo St.init).1 = Except.ok
      (buildResponseBody evCreate "SUCCESS" none
        (some [("GatewayId", gwReady.gatewayId),
               ("GatewayUrl", resolveGatewayUrl gwReady.gatewayUrl
                  gwReady.gatewayId propsDemo.region),
               ("TargetId",
                TargetRecord.targetId { targetId := "tgt-1" })])
        (some gwReady.gatewayId))) ∧
    ((update_gateway envInplace evSameName propsDemo St.init).1 = Except.ok
      (buildResponseBody evSameName "SUCCESS" none
        (some [("GatewayId", "gw-1"),
               ("GatewayUrl", resolveGatewayUrl gwReady.gatewayUrl "gw-1"
                  propsDemo.region),
               ("TargetId",
                TargetRecord.targetId { targetId := "tgt-1" })])
        (some "gw-1"))) :=
  ⟨C8_url_resolution_amended.1 baseEnv evCreate propsDemo St.init
      [] "gw-new" "tgt-1" gwReady gwReady
      rfl (by simp) rfl rfl rfl rfl rfl (fun _ => rfl) (fun _ => rfl),
   C8_url_resolution_amended.2.1 envIdem evCreate propsDemo St.init
      [] [] gwReady gwReady { targetId := "tgt-1" } []
      rfl (by simp) rfl rfl rfl rfl (fun _ => rfl) (fun _ => rfl),
   C8_url_resolution_amended.2.2.1 envInplace evSameName propsDemo St.init
      "gw-1" propsDemo { targetId := "tgt-1" } [] gwReady
      rfl rfl rfl rfl rfl rfl (fun _ => rfl) (fun _ => rfl)⟩

/-- READY gateway record without a URL field. -/
def gwNoUrl : GatewayRecord :=
  { gatewayId := "gw-1", name := "demo", status := "READY"
    gatewayUrl := none }

/-- Oracle for the update path returning the URL-less record, with one
existing target. -/
def envNoUrl : Env :=
  { envInplace with getGatewayR := fun _ => Except.ok gwNoUrl }

/-- Claim C9: when the remote record lacks a URL, the configuration store
never receives the gateway_url key.  General part: update_ssm_parameters on
a URL-less record appends exactly the target_id and gateway_id entries.
Concrete part: a successful update-path run with such a record writes only
those two keys — no entry under the gateway_url name — while the callback
Data still carries the constructed fallback URL. -/
theorem C9_no_gateway_url_write_when_absent :
    (∀ (env : Env) (gd : GatewayRecord) (tid : String)
       (props : ResourceProps) (s : St),
      gd.gatewayUrl = none →
      (∀ n, env.putParameterR n = Except.ok ()) →
      (update_ssm_parameters env gd tid props s).1 = Except.ok () ∧
      (update_ssm_parameters env gd tid props s).2.ssmWrites =
        s.ssmWrites ++ [(props.ssmRoot ++ "/target_id", tid),
                        (props.ssmRoot ++ "/gateway_id", gd.gatewayId)]) ∧
    ((update_gateway envNoUrl evSameName propsDemo St.init).2.ssmWrites =
        [("/app/gw/target_id", "tgt-1"), ("/app/gw/gateway_id", "gw-1")] ∧
     ((update_gateway envNoUrl evSameName propsDemo
        St.init).2.ssmWrites.filter
          (fun p => p.1 == "/app/gw/gateway_url")) = [] ∧
     (update_gateway envNoUrl evSameName propsDemo St.init).1 = Except.ok
       (buildResponseBody evSameName "SUCCESS" none
         (some [("GatewayId", "gw-1"),
                ("GatewayUrl", fallbackUrl "gw-1" "us-east-1"),
                ("TargetId", "tgt-1")]) (some "gw-1"))) := by
  refine ⟨?_, rfl, rfl, rfl⟩
  intro env gd tid props s hurl hput
  constructor <;>
    simp [update_ssm_parameters, putParameterM, hurl, hput]

/-- Witness for C9: the general part applied to the URL-less record. -/
theorem C9_no_gateway_url_write_when_absent_witness :
    (update_ssm_parameters baseEnv gwNoUrl "tgt-1" propsDemo St.init).1 =
      Except.ok () ∧
    (update_ssm_parameters baseEnv gwNoUrl "tgt-1" propsDemo
      St.init).2.ssmWrites = St.init.ssmWrites ++
        [(propsDemo.ssmRoot ++ "/target_id", "tgt-1"),
         (propsDemo.ssmRoot ++ "/gateway_id", gwNoUrl.gatewayId)] :=
  C9_no_gateway_url_write_when_absent.1 baseEnv gwNoUrl "tgt-1" propsDemo
    St.init rfl (fun _ => rfl)
